import Mathlib

/-!
Verification of the Mergington High School activities API (`src/app.py`)
against its specification.

The program keeps an in-memory registry mapping activity names to activity
records and exposes three request handlers: list activities, sign up, and
unregister.  Python's `dict` preserves insertion order, so the registry is
embedded as an association list of (name, record) pairs; the handlers are
embedded as pure functions from a registry state to a response together with
the next state.
-/

/-- An activity record, mirroring the per-activity dictionary in `app.py`:
`description`, `schedule`, `max_participants`, `participants`. -/
structure Activity where
  description : String
  schedule : String
  max_participants : Nat
  participants : List String
deriving Repr, DecidableEq

/-- The registry: Python's insertion-ordered dict of name → activity. -/
abbrev Registry := List (String × Activity)

/-- An HTTP response: a 200 JSON `{"message": ...}` or an
`HTTPException(status_code, detail)`. -/
inductive ApiResult where
  | ok : String → ApiResult
  | httpError : Nat → String → ApiResult
deriving Repr, DecidableEq

/-- Dictionary lookup `activities[activity_name]` /
`activity_name in activities` (first entry with the given key). -/
def lookupActivity (st : Registry) (name : String) : Option Activity :=
  match st with
  | [] => none
  | p :: rest => if p.1 = name then some p.2 else lookupActivity rest name

/-- Replacing the record stored under a key (the effect of mutating
`activities[activity_name]` in place). -/
def updateActivity (st : Registry) (name : String) (a : Activity) : Registry :=
  match st with
  | [] => []
  | p :: rest =>
      (if p.1 = name then (p.1, a) else p) :: updateActivity rest name a

/-- `GET /activities` (`get_activities` in `app.py`): returns the registry
as-is and leaves the state unchanged. -/
def get_activities (st : Registry) : Registry × Registry := (st, st)

/-- `POST /activities/{activity_name}/signup` (`signup_for_activity` in
`app.py`): 404 if the name is not a key; 400 if the email is already in the
participants; otherwise appends the email and returns the confirmation
message.  The source contains no capacity check. -/
def signup_for_activity (st : Registry) (activity_name email : String) :
    ApiResult × Registry :=
  match lookupActivity st activity_name with
  | none => (.httpError 404 "Activity not found", st)
  | some activity =>
      if email ∈ activity.participants then
        (.httpError 400 "Student already signed up for this activity", st)
      else
        (.ok ("Signed up " ++ email ++ " for " ++ activity_name),
         updateActivity st activity_name
           { activity with participants := activity.participants ++ [email] })

/-- Modelled from the spec: the `DELETE /activities/{activity_name}/unregister`
handler is absent from `src/app.py` (only `tests/test_app.py` calls it).
Per §4.1, §6 and §7 of the spec it fails with 404 "Activity not found" when
the activity name is not a registry key, with 400 "Student is not registered
for this activity" when the email is not currently in that activity's
participants, and otherwise removes the email from the participants and
returns 200 `{"message": "Unregistered {email} from {name}"}`. -/
def unregister_from_activity (st : Registry) (activity_name email : String) :
    ApiResult × Registry :=
  match lookupActivity st activity_name with
  | none => (.httpError 404 "Activity not found", st)
  | some activity =>
      if email ∈ activity.participants then
        (.ok ("Unregistered " ++ email ++ " from " ++ activity_name),
         updateActivity st activity_name
           { activity with participants := activity.participants.erase email })
      else
        (.httpError 400 "Student is not registered for this activity", st)

/-- Seed record for "Tennis Club" from `app.py`. -/
def tennisClub : Activity :=
  { description := "Learn tennis skills and participate in friendly matches"
    schedule := "Wednesdays and Saturdays, 4:00 PM - 5:30 PM"
    max_participants := 16
    participants := ["alex@mergington.edu"] }

/-- Seed record for "Basketball Team" from `app.py`. -/
def basketballTeam : Activity :=
  { description := "Competitive basketball team with regular practices and games"
    schedule := "Mondays and Thursdays, 3:30 PM - 5:00 PM"
    max_participants := 15
    participants := ["james@mergington.edu", "marcus@mergington.edu"] }

/-- Seed record for "Art Studio" from `app.py`. -/
def artStudio : Activity :=
  { description := "Explore various painting, drawing, and sculpture techniques"
    schedule := "Tuesdays and Fridays, 3:30 PM - 5:00 PM"
    max_participants := 18
    participants := ["isabella@mergington.edu"] }

/-- Seed record for "Music Ensemble" from `app.py`. -/
def musicEnsemble : Activity :=
  { description := "Perform in school concerts and develop musical skills"
    schedule := "Wednesdays, 4:00 PM - 5:30 PM"
    max_participants := 25
    participants := ["lucas@mergington.edu", "grace@mergington.edu"] }

/-- Seed record for "Debate Club" from `app.py`. -/
def debateClub : Activity :=
  { description := "Develop argumentation skills and compete in debate tournaments"
    schedule := "Thursdays, 3:30 PM - 5:00 PM"
    max_participants := 14
    participants := ["sarah@mergington.edu"] }

/-- Seed record for "Science Olympiad" from `app.py`. -/
def scienceOlympiad : Activity :=
  { description := "Prepare for science competitions in various STEM disciplines"
    schedule := "Mondays and Wednesdays, 4:00 PM - 5:30 PM"
    max_participants := 20
    participants := ["andrew@mergington.edu", "nina@mergington.edu"] }

/-- Seed record for "Chess Club" from `app.py`. -/
def chessClub : Activity :=
  { description := "Learn strategies and compete in chess tournaments"
    schedule := "Fridays, 3:30 PM - 5:00 PM"
    max_participants := 12
    participants := ["michael@mergington.edu", "daniel@mergington.edu"] }

/-- Seed record for "Programming Class" from `app.py`. -/
def programmingClass : Activity :=
  { description := "Learn programming fundamentals and build software projects"
    schedule := "Tuesdays and Thursdays, 3:30 PM - 4:30 PM"
    max_participants := 20
    participants := ["emma@mergington.edu", "sophia@mergington.edu"] }

/-- Seed record for "Gym Class" from `app.py`. -/
def gymClass : Activity :=
  { description := "Physical education and sports activities"
    schedule := "Mondays, Wednesdays, Fridays, 2:00 PM - 3:00 PM"
    max_participants := 30
    participants := ["john@mergington.edu", "olivia@mergington.edu"] }

/-- The seeded registry `activities` from `app.py`, in source order. -/
def seedActivities : Registry :=
  [("Tennis Club", tennisClub),
   ("Basketball Team", basketballTeam),
   ("Art Studio", artStudio),
   ("Music Ensemble", musicEnsemble),
   ("Debate Club", debateClub),
   ("Science Olympiad", scienceOlympiad),
   ("Chess Club", chessClub),
   ("Programming Class", programmingClass),
   ("Gym Class", gymClass)]

/-- The invariant of spec §3: no email appears twice in one activity's
participants. -/
def NoDupParticipants (st : Registry) : Prop :=
  ∀ p ∈ st, (Prod.snd p).participants.Nodup

instance (st : Registry) : Decidable (NoDupParticipants st) :=
  inferInstanceAs (Decidable (∀ p ∈ st, (Prod.snd p).participants.Nodup))

/-- The filler emails used by `test_signup_at_capacity` to fill Gym Class
from its seeded 2 participants up to its capacity of 30. -/
def fillerEmails : List String :=
  (List.range 28).map (fun i => "filler" ++ toString i ++ "@mergington.edu")

/-- Running a sequence of signup requests for one activity, keeping only the
final registry state. -/
def signupMany (st : Registry) (name : String) (emails : List String) :
    Registry :=
  emails.foldl (fun s e => (signup_for_activity s name e).2) st

/-! ### Lemmas about registry lookup and update -/

theorem lookup_update_self {st : Registry} {name : String} {a : Activity}
    (h : lookupActivity st name = some a) (v : Activity) :
    lookupActivity (updateActivity st name v) name = some v := by
  induction st with
  | nil => simp [lookupActivity] at h
  | cons p rest ih =>
    by_cases hp : p.1 = name
    · simp [lookupActivity, updateActivity, hp]
    · simp only [lookupActivity, if_neg hp] at h
      simp [lookupActivity, updateActivity, hp, ih h]

theorem lookup_update_ne {st : Registry} {name other : String}
    (h : other ≠ name) (v : Activity) :
    lookupActivity (updateActivity st name v) other = lookupActivity st other := by
  induction st with
  | nil => rfl
  | cons p rest ih =>
    by_cases hp : p.1 = name
    · have hno : ¬(name = other) := fun hh => h hh.symm
      simp [lookupActivity, updateActivity, hp, hno, ih]
    · simp only [updateActivity, if_neg hp]
      by_cases hq : p.1 = other
      · simp [lookupActivity, hq]
      · simp [lookupActivity, hq, ih]

theorem mem_of_lookup {st : Registry} {name : String} {a : Activity}
    (h : lookupActivity st name = some a) : (name, a) ∈ st := by
  induction st with
  | nil => simp [lookupActivity] at h
  | cons p rest ih =>
    obtain ⟨k, x⟩ := p
    by_cases hp : k = name
    · simp only [lookupActivity, if_pos hp] at h
      obtain rfl := Option.some.inj h
      subst hp
      exact List.mem_cons_self _ _
    · simp only [lookupActivity, if_neg hp] at h
      exact List.mem_cons_of_mem _ (ih h)

theorem noDupParticipants_update {st : Registry} {n : String} {v : Activity}
    (hst : NoDupParticipants st) (hv : v.participants.Nodup) :
    NoDupParticipants (updateActivity st n v) := by
  induction st with
  | nil => intro p hp; simp [updateActivity] at hp
  | cons q rest ih =>
    intro p hp
    simp only [updateActivity, List.mem_cons] at hp
    rcases hp with hp | hp
    · subst hp
      by_cases hq : q.1 = n
      · simpa [hq] using hv
      · simp only [if_neg hq]
        exact hst q (List.mem_cons_self _ _)
    · exact ih (fun r hr => hst r (List.mem_cons_of_mem _ hr)) p hp

theorem erase_append_self {e : String} {l : List String} (h : e ∉ l) :
    (l ++ [e]).erase e = l := by
  rw [List.erase_append_right _ h]
  simp

/-! ### Claim theorems -/

/-- C4: for every activity name that is a key in the registry and every email
not already in that activity's participants (and with room under capacity),
signup appends the email at the end of the participants list, increases the
participant count by exactly 1, and returns a 200 confirmation message
containing both the email and the activity name. -/
theorem signup_success_appends (st : Registry) (name email : String)
    (a : Activity) (h : lookupActivity st name = some a)
    (hmem : email ∉ a.participants)
    (_hroom : a.participants.length < a.max_participants) :
    (signup_for_activity st name email).1 =
        .ok ("Signed up " ++ email ++ " for " ++ name) ∧
    lookupActivity (signup_for_activity st name email).2 name =
        some { a with participants := a.participants ++ [email] } ∧
    (a.participants ++ [email]).length = a.participants.length + 1 := by
  refine ⟨?_, ?_, by simp⟩
  · simp [signup_for_activity, h, hmem]
  · simp only [signup_for_activity, h]
    simp only [hmem, if_neg, ite_false, not_false_eq_true]
    exact lookup_update_self h _

/-- Witness for C4 at the seed registry: signing up new@x.edu for
"Tennis Club". -/
theorem signup_success_appends_witness :
    (signup_for_activity seedActivities "Tennis Club" "new@x.edu").1 =
        .ok ("Signed up " ++ "new@x.edu" ++ " for " ++ "Tennis Club") ∧
    lookupActivity (signup_for_activity seedActivities "Tennis Club"
        "new@x.edu").2 "Tennis Club" =
      some { tennisClub with
              participants := tennisClub.participants ++ ["new@x.edu"] } ∧
    (tennisClub.participants ++ ["new@x.edu"]).length =
        tennisClub.participants.length + 1 :=
  signup_success_appends seedActivities "Tennis Club" "new@x.edu" tennisClub
    rfl (by decide) (by decide)

/-- C5: signup of an email already present in the activity's participants
fails with a 400 error whose detail is "Student already signed up for this
activity" and leaves the registry unchanged. -/
theorem signup_already_registered (st : Registry) (name email : String)
    (a : Activity) (h : lookupActivity st name = some a)
    (hmem : email ∈ a.participants) :
    signup_for_activity st name email =
      (.httpError 400 "Student already signed up for this activity", st) := by
  simp [signup_for_activity, h, hmem]

/-- Witness for C5 at the seed registry: alex@mergington.edu is already in
"Tennis Club". -/
theorem signup_already_registered_witness :
    signup_for_activity seedActivities "Tennis Club" "alex@mergington.edu" =
      (.httpError 400 "Student already signed up for this activity",
       seedActivities) :=
  signup_already_registered seedActivities "Tennis Club"
    "alex@mergington.edu" tennisClub rfl (by decide)

/-- C6: signup for an activity name that is not a key in the registry fails
with a 404 error whose detail is "Activity not found" and leaves the registry
unchanged. -/
theorem signup_activity_not_found (st : Registry) (name email : String)
    (h : lookupActivity st name = none) :
    signup_for_activity st name email =
      (.httpError 404 "Activity not found", st) := by
  simp [signup_for_activity, h]

/-- Witness for C6 at the seed registry: "Nonexistent Club" is not a key. -/
theorem signup_activity_not_found_witness :
    signup_for_activity seedActivities "Nonexistent Club"
        "student@mergington.edu" =
      (.httpError 404 "Activity not found", seedActivities) :=
  signup_activity_not_found seedActivities "Nonexistent Club"
    "student@mergington.edu" rfl

/-- C9: the list-activities operation always succeeds (it is a total
function), has no side effects (the second component, the next state, is the
input state), and returns the full registry mapping as-is (the first
component, the response, is the input registry itself — so every activity
name in the registry appears as a key, and every record carries its
`description`, `schedule`, `max_participants`, and list-valued
`participants` fields by the definition of `Activity`). -/
theorem get_activities_returns_registry_unchanged :
    ∀ st : Registry, get_activities st = (st, st) :=
  fun _ => rfl

/-- C10: a successful signup for activity `name` leaves every other activity
unchanged, and changes only the `participants` field of `name`'s record:
`description`, `schedule`, and `max_participants` are preserved. -/
theorem signup_frame (st : Registry) (name email : String) (a : Activity)
    (h : lookupActivity st name = some a) (hmem : email ∉ a.participants) :
    (∀ other, other ≠ name →
        lookupActivity (signup_for_activity st name email).2 other =
          lookupActivity st other) ∧
    ∃ a', lookupActivity (signup_for_activity st name email).2 name =
            some a' ∧
      a'.description = a.description ∧
      a'.schedule = a.schedule ∧
      a'.max_participants = a.max_participants ∧
      a'.participants = a.participants ++ [email] := by
  have h1 : (signup_for_activity st name email).2 =
      updateActivity st name
        { a with participants := a.participants ++ [email] } := by
    simp [signup_for_activity, h, hmem]
  constructor
  · intro other ho
    rw [h1]
    exact lookup_update_ne ho _
  · refine ⟨{ a with participants := a.participants ++ [email] }, ?_,
      rfl, rfl, rfl, rfl⟩
    rw [h1]
    exact lookup_update_self h _

/-- Witness for C10 at the seed registry: signing up new@x.edu for
"Tennis Club" leaves "Chess Club" unchanged and preserves Tennis Club's other
fields. -/
theorem signup_frame_witness :
    lookupActivity (signup_for_activity seedActivities "Tennis Club"
        "new@x.edu").2 "Chess Club" =
      lookupActivity seedActivities "Chess Club" ∧
    ∃ a', lookupActivity (signup_for_activity seedActivities "Tennis Club"
            "new@x.edu").2 "Tennis Club" = some a' ∧
      a'.description = tennisClub.description ∧
      a'.schedule = tennisClub.schedule ∧
      a'.max_participants = tennisClub.max_participants ∧
      a'.participants = tennisClub.participants ++ ["new@x.edu"] := by
  have h := signup_frame seedActivities "Tennis Club" "new@x.edu" tennisClub
    rfl (by decide)
  exact ⟨h.1 "Chess Club" (by decide), h.2⟩

/-- C1: the unregister operation (modelled from the spec, since the handler
is absent from `src/app.py`).  For a present activity and a present email it
removes that email from the participants (when the participants are
duplicate-free the email is gone afterwards) and returns the 200
confirmation; for a present activity and an absent email it fails with
400 "Student is not registered for this activity"; for an absent activity it
fails with 404 "Activity not found".  The failing cases leave the registry
unchanged. -/
theorem unregister_contract (st : Registry) (n e : String) :
    (∀ a, lookupActivity st n = some a → e ∈ a.participants →
      unregister_from_activity st n e =
        (.ok ("Unregistered " ++ e ++ " from " ++ n),
         updateActivity st n
           { a with participants := a.participants.erase e }) ∧
      lookupActivity (unregister_from_activity st n e).2 n =
        some { a with participants := a.participants.erase e } ∧
      (a.participants.Nodup → e ∉ a.participants.erase e)) ∧
    (∀ a, lookupActivity st n = some a → e ∉ a.participants →
      unregister_from_activity st n e =
        (.httpError 400 "Student is not registered for this activity", st)) ∧
    (lookupActivity st n = none →
      unregister_from_activity st n e =
        (.httpError 404 "Activity not found", st)) := by
  refine ⟨?_, ?_, ?_⟩
  · intro a ha hm
    have heq : unregister_from_activity st n e =
        (.ok ("Unregistered " ++ e ++ " from " ++ n),
         updateActivity st n
           { a with participants := a.participants.erase e }) := by
      simp [unregister_from_activity, ha, hm]
    refine ⟨heq, ?_, fun hnd => hnd.not_mem_erase⟩
    rw [heq]
    exact lookup_update_self ha _
  · intro a ha hm
    simp [unregister_from_activity, ha, hm]
  · intro ha
    simp [unregister_from_activity, ha]

/-- Witness for C1 at the seed registry: the three branches at concrete
inputs — removing alex from "Tennis Club", an absent email in
"Music Ensemble", and a nonexistent activity. -/
theorem unregister_contract_witness :
    unregister_from_activity seedActivities "Tennis Club"
        "alex@mergington.edu" =
      (.ok ("Unregistered " ++ "alex@mergington.edu" ++ " from " ++
            "Tennis Club"),
       updateActivity seedActivities "Tennis Club"
         { tennisClub with
            participants :=
              tennisClub.participants.erase "alex@mergington.edu" }) ∧
    unregister_from_activity seedActivities "Music Ensemble"
        "notregistered@mergington.edu" =
      (.httpError 400 "Student is not registered for this activity",
       seedActivities) ∧
    unregister_from_activity seedActivities "Nonexistent Club"
        "student@mergington.edu" =
      (.httpError 404 "Activity not found", seedActivities) := by
  refine ⟨?_, ?_, ?_⟩
  · exact ((unregister_contract seedActivities "Tennis Club"
      "alex@mergington.edu").1 tennisClub rfl (by decide)).1
  · exact (unregister_contract seedActivities "Music Ensemble"
      "notregistered@mergington.edu").2.1 musicEnsemble rfl (by decide)
  · exact (unregister_contract seedActivities "Nonexistent Club"
      "student@mergington.edu").2.2 rfl

/-- C7: for every registry state, activity `name` present in it, and email
not in that activity's participants, signup followed by unregister of the
same email returns the activity's record — in particular its participant
list — to its exact pre-signup state, order preserved. -/
theorem signup_unregister_round_trip (st : Registry) (name email : String)
    (a : Activity) (h : lookupActivity st name = some a)
    (hmem : email ∉ a.participants) :
    lookupActivity
        (unregister_from_activity
          (signup_for_activity st name email).2 name email).2 name =
      some a := by
  have h1 : (signup_for_activity st name email).2 =
      updateActivity st name
        { a with participants := a.participants ++ [email] } := by
    simp [signup_for_activity, h, hmem]
  have h2 : lookupActivity (signup_for_activity st name email).2 name =
      some { a with participants := a.participants ++ [email] } := by
    rw [h1]
    exact lookup_update_self h _
  have hmem2 : email ∈
      ({ a with participants := a.participants ++ [email] } :
        Activity).participants := by
    simp
  have herase : (a.participants ++ [email]).erase email = a.participants :=
    erase_append_self hmem
  simp only [unregister_from_activity, h2]
  rw [if_pos hmem2]
  simp only [herase]
  exact lookup_update_self h2 a

/-- Witness for C7 at the seed registry: signing up new@x.edu for
"Tennis Club" and then unregistering restores the seed record. -/
theorem signup_unregister_round_trip_witness :
    lookupActivity
        (unregister_from_activity
          (signup_for_activity seedActivities "Tennis Club" "new@x.edu").2
          "Tennis Club" "new@x.edu").2 "Tennis Club" =
      some tennisClub :=
  signup_unregister_round_trip seedActivities "Tennis Club" "new@x.edu"
    tennisClub rfl (by decide)

/-- C8: no email appears twice in one activity's participants: the invariant
holds for the seeded registry and is preserved by every signup and
unregister operation. -/
theorem participants_nodup_invariant :
    NoDupParticipants seedActivities ∧
    ∀ (st : Registry) (n e : String), NoDupParticipants st →
      NoDupParticipants (signup_for_activity st n e).2 ∧
      NoDupParticipants (unregister_from_activity st n e).2 := by
  constructor
  · decide
  · intro st n e hst
    constructor
    · cases hl : lookupActivity st n with
      | none => simpa [signup_for_activity, hl] using hst
      | some a =>
        by_cases hm : e ∈ a.participants
        · simpa [signup_for_activity, hl, hm] using hst
        · have ha : a.participants.Nodup := hst (n, a) (mem_of_lookup hl)
          have hnd : (a.participants ++ [e]).Nodup := by
            simp [List.nodup_append, ha, hm]
          simp only [signup_for_activity, hl]
          rw [if_neg hm]
          exact noDupParticipants_update hst hnd
    · cases hl : lookupActivity st n with
      | none => simpa [unregister_from_activity, hl] using hst
      | some a =>
        by_cases hm : e ∈ a.participants
        · have ha : a.participants.Nodup := hst (n, a) (mem_of_lookup hl)
          simp only [unregister_from_activity, hl]
          rw [if_pos hm]
          exact noDupParticipants_update hst (ha.erase e)
        · simpa [unregister_from_activity, hl, hm] using hst

/-- Witness for C8 at the seed registry: one signup and one unregister both
preserve the no-duplicates invariant from the seed. -/
theorem participants_nodup_invariant_witness :
    NoDupParticipants
        (signup_for_activity seedActivities "Tennis Club" "new@x.edu").2 ∧
    NoDupParticipants
        (unregister_from_activity seedActivities "Tennis Club"
          "alex@mergington.edu").2 :=
  ⟨(participants_nodup_invariant.2 seedActivities "Tennis Club" "new@x.edu"
      (by decide)).1,
   (participants_nodup_invariant.2 seedActivities "Tennis Club"
      "alex@mergington.edu" (by decide)).2⟩

/-! ### The missing capacity check (claims C2 and C3)

`test_signup_at_capacity` in `tests/test_app.py` fills "Gym Class" to its
`max_participants` of 30 with emails `filler{i}@mergington.edu` and expects
the next signup to fail with 400 "at capacity".  `signup_for_activity` in
`src/app.py` has no capacity branch, so the extra signup succeeds and the
list grows to 31. -/

/-- C2 fails on the code: with "Gym Class" filled to exactly its
`max_participants` (30), a further signup with a fresh email is NOT rejected
with a 400 "at capacity" error — it returns the 200 confirmation and grows
the participants list to 31. -/
theorem signup_at_capacity_not_rejected :
    (lookupActivity (signupMany seedActivities "Gym Class" fillerEmails)
        "Gym Class").map
        (fun a => (a.participants.length, a.max_participants)) =
      some (30, 30) ∧
    (signup_for_activity (signupMany seedActivities "Gym Class" fillerEmails)
        "Gym Class" "newstudent@mergington.edu").1 =
      .ok "Signed up newstudent@mergington.edu for Gym Class" ∧
    (lookupActivity
        (signup_for_activity
          (signupMany seedActivities "Gym Class" fillerEmails)
          "Gym Class" "newstudent@mergington.edu").2 "Gym Class").map
        (fun a => a.participants.length) =
      some 31 :=
  ⟨rfl, rfl, rfl⟩

/-- C3 fails on the code: starting from the seeded registry, a reachable
sequence of successful signups drives "Gym Class" past its capacity — after
the last successful signup the record has 31 participants against
`max_participants = 30`. -/
theorem signup_breaks_capacity_invariant :
    (signup_for_activity (signupMany seedActivities "Gym Class" fillerEmails)
        "Gym Class" "newstudent@mergington.edu").1 =
      .ok "Signed up newstudent@mergington.edu for Gym Class" ∧
    ∃ a, lookupActivity
          (signup_for_activity
            (signupMany seedActivities "Gym Class" fillerEmails)
            "Gym Class" "newstudent@mergington.edu").2 "Gym Class" =
        some a ∧
      a.max_participants < a.participants.length := by
  refine ⟨rfl, ?_⟩
  refine ⟨_, rfl, ?_⟩
  decide
